import Mathlib

/-!
# Verification of the Weather Agent's tool and streaming layers

A shallow embedding of the repository's original application logic:

* `src/tools.py` — the two LangChain tools `geocode_address` and
  `get_weather_forecast` (date defaulting, request construction, response
  formatting, error handling);
* `src/app.py` — `reverse_geocode_location` (map-pin reverse geocoding) and
  `chat_stream` (the cumulative streaming turn handler).

Modelling conventions, used consistently below:

* The outbound HTTP exchange of each tool is the one effectful step; it is
  modelled as an explicit response argument (an inductive covering the
  success payload, an HTTP status failure as raised by
  `response.raise_for_status()`, and any other exception).  Everything the
  Python code does around that step is translated directly.
* Python `float` values that the code only ever interpolates into strings
  (coordinates, temperatures, precipitation, wind) are modelled by their
  decimal renderings, i.e. by the `String` that Python's string interpolation
  of the float produces.  The code performs no arithmetic on any of them.
* ISO `YYYY-MM-DD` date strings are modelled by their day ordinals (`ℤ`),
  via the order isomorphism `date.fromordinal`/`date.toordinal`;
  `date.today()` becomes an explicit `today : ℤ` parameter and
  `timedelta(days = 7)` becomes `+ 7`.
* Exceptions are modelled by `Except String` where the Python code itself
  can raise inside a `try` block (list indexing in the formatting loop).
-/

namespace WeatherAgent

/-! ## String helpers shared by the embeddings -/

/-- `"\n".join(result_lines)` / `str.join`: the separator goes between
consecutive elements only. -/
def joinLines : List String → String
  | [] => ""
  | [x] => x
  | x :: y :: xs => x ++ "\n" ++ joinLines (y :: xs)

/-- `"-" * 50`, the divider line of the forecast output. -/
def dashes50 : String := String.mk (List.replicate 50 '-')

/-! ## `src/tools.py` — `geocode_address` (lines 12–51)

The Nominatim response (`response.json()`) is a JSON array; the code reads
`result["lat"]`, `result["lon"]` (converted with `float(...)`) and
`result.get("display_name", address)` of the first element. -/

/-- One element of the geocoding response array.  `lat`/`lon` hold the
rendering of `float(result["lat"])` / `float(result["lon"])` (a malformed
numeric string makes `float` raise, which the code's blanket
`except Exception` turns into the `otherException` branch below).
`display_name` is `none` when the key is absent. -/
structure GeoItem where
  lat : String
  lon : String
  display_name : Option String
  deriving Repr, DecidableEq

/-- Outcome of the geocoding HTTP exchange, as observed by the code after
`response.raise_for_status()` / `response.json()`. -/
inductive GeocodeResponse
  | success (data : List GeoItem)
  | httpStatusError (status : Nat)
  | otherException (msg : String)
  deriving Repr, DecidableEq

/-- `geocode_address` (src/tools.py lines 12–51): first-match policy, the
no-match message, and the two non-raising error branches. -/
def geocode_address (address : String) (resp : GeocodeResponse) : String :=
  match resp with
  | .success [] =>
      "Could not find a location matching \"" ++ address ++
        "\". Try a different search term."
  | .success (result :: _) =>
      "Location: \"" ++ result.display_name.getD address ++ "\"\n" ++
        "Latitude: " ++ result.lat ++ "\n" ++
        "Longitude: " ++ result.lon
  | .httpStatusError status => "Geocoding API error: " ++ toString status
  | .otherException msg => "Geocoding error: " ++ msg

/-! ## `src/tools.py` — `get_weather_forecast` (lines 54–164) -/

/-- Date defaulting, src/tools.py lines 77–78: `if start_date is None:
start_date = date.today().isoformat()`.  Dates are day ordinals. -/
def effectiveStartDate (today : ℤ) (start_date : Option ℤ) : ℤ :=
  start_date.getD today

/-- Date defaulting, src/tools.py lines 79–80: `if end_date is None:
end_date = (date.today() + timedelta(days=7)).isoformat()`.  Note the code
starts from `date.today()`, not from `start_date`. -/
def effectiveEndDate (today : ℤ) (end_date : Option ℤ) : ℤ :=
  end_date.getD (today + 7)

/-- The constant `daily` metric list of the request (src/tools.py
lines 90–97). -/
def dailyMetrics : List String :=
  ["temperature_2m_max", "temperature_2m_min", "precipitation_sum",
   "precipitation_probability_max", "windspeed_10m_max", "weathercode"]

/-- The outbound request's query parameters (src/tools.py lines 83–98),
after date defaulting.  `latitude`/`longitude` keep the float-rendering
convention; the dates are day ordinals. -/
structure ForecastParams where
  latitude : String
  longitude : String
  start_date : ℤ
  end_date : ℤ
  temperature_unit : String
  timezone : String
  daily : List String
  deriving Repr, DecidableEq

/-- The `daily` object of the forecast response (src/tools.py lines
107–114): each `daily.get(key, [])` read, with an absent key giving `[]`.
The arrays need not be equally long; `weathercode` entries are the JSON
integers fed to the description table, all others follow the
float-rendering convention. -/
structure DailyData where
  time : List String
  temperature_2m_max : List String
  temperature_2m_min : List String
  precipitation_sum : List String
  precipitation_probability_max : List String
  windspeed_10m_max : List String
  weathercode : List ℤ
  deriving Repr, DecidableEq

/-- Outcome of the forecast HTTP exchange. -/
inductive ForecastResponse
  | success (daily : DailyData)
  | httpStatusError (status : Nat) (body : String)
  | otherException (msg : String)
  deriving Repr, DecidableEq

/-- The fixed weather-code lookup table (src/tools.py lines 117–139). -/
def weather_descriptions : List (ℤ × String) :=
  [(0, "Clear sky"), (1, "Mainly clear"), (2, "Partly cloudy"),
   (3, "Overcast"), (45, "Foggy"), (48, "Depositing rime fog"),
   (51, "Light drizzle"), (53, "Moderate drizzle"), (55, "Dense drizzle"),
   (61, "Slight rain"), (63, "Moderate rain"), (65, "Heavy rain"),
   (71, "Slight snow"), (73, "Moderate snow"), (75, "Heavy snow"),
   (80, "Slight rain showers"), (81, "Moderate rain showers"),
   (82, "Violent rain showers"), (95, "Thunderstorm"),
   (96, "Thunderstorm with slight hail"), (99, "Thunderstorm with heavy hail")]

/-- `unit_symbol = "°F" if temperature_unit == "fahrenheit" else "°C"`
(src/tools.py line 141). -/
def unitSymbol (temperature_unit : String) : String :=
  if temperature_unit = "fahrenheit" then "°F" else "°C"

/-- One per-day block of the loop body (src/tools.py lines 149–157):
`weather_descriptions.get(weather_codes[i], "Unknown")` then the f-string
appended to `result_lines`.  Out-of-range indexing (misaligned response
arrays) raises `IndexError("list index out of range")`, modelled by the
`.error` branch; the caller's `except Exception` catches it. -/
def formatRow (d : DailyData) (unit_symbol : String) (i : Nat) (dt : String) :
    Except String String :=
  match d.weathercode.get? i, d.temperature_2m_min.get? i,
      d.temperature_2m_max.get? i, d.precipitation_sum.get? i,
      d.precipitation_probability_max.get? i, d.windspeed_10m_max.get? i with
  | some wc, some tmin, some tmax, some pr, some prp, some wd =>
      .ok ("\n" ++ dt ++ ":\n" ++
        "  Condition: " ++ ((weather_descriptions.lookup wc).getD "Unknown") ++ "\n" ++
        "  Temperature: " ++ tmin ++ unit_symbol ++ " - " ++ tmax ++ unit_symbol ++ "\n" ++
        "  Precipitation: " ++ pr ++ "mm (probability: " ++ prp ++ "%)\n" ++
        "  Max Wind: " ++ wd ++ " km/h")
  | _, _, _, _, _, _ => .error "list index out of range"

/-- The formatting loop `for i, date in enumerate(dates)` (src/tools.py
lines 149–157), starting from index `i`: blocks in order, stopping at the
first `IndexError` with nothing kept (no partial results). -/
def formatRows (d : DailyData) (unit_symbol : String) (i : Nat) :
    List String → Except String (List String)
  | [] => .ok []
  | dt :: dts => do
      let row ← formatRow d unit_symbol i dt
      let rest ← formatRows d unit_symbol (i + 1) dts
      .ok (row :: rest)

/-- All per-day blocks of one response, `enumerate` starting at 0. -/
def formatDays (d : DailyData) (unit_symbol : String) :
    Except String (List String) :=
  formatRows d unit_symbol 0 d.time

/-- `get_weather_forecast` (src/tools.py lines 54–164), returning both the
outbound request parameters it builds (lines 77–98) and the text it returns.
Python's keyword defaults are `temperature_unit = "fahrenheit"`,
`timezone = "auto"`; `today` is the process-local `date.today()`. -/
def get_weather_forecast (latitude longitude : String) (today : ℤ)
    (start_date end_date : Option ℤ) (temperature_unit timezone : String)
    (resp : ForecastResponse) : ForecastParams × String :=
  let params : ForecastParams :=
    { latitude := latitude, longitude := longitude
      start_date := effectiveStartDate today start_date
      end_date := effectiveEndDate today end_date
      temperature_unit := temperature_unit, timezone := timezone
      daily := dailyMetrics }
  let text :=
    match resp with
    | .success daily =>
        match formatDays daily (unitSymbol temperature_unit) with
        | .ok rows =>
            joinLines
              (("Weather Forecast for (" ++ latitude ++ ", " ++ longitude ++ ")") ::
                ("Timezone: " ++ timezone) :: dashes50 :: rows)
        | .error msg => "Error fetching weather data: " ++ msg
    | .httpStatusError status body =>
        "API Error: " ++ toString status ++ " - " ++ body
    | .otherException msg => "Error fetching weather data: " ++ msg
  (params, text)

/-! ## `src/app.py` — Python `float(...)` and `f"{x:.5f}"`

`reverse_geocode_location` parses the two halves of a `"lat,lng"` string with
`float(...)` and re-renders them with the fixed-point format `.5f`.  The model
parses to exact rationals (the binary rounding of IEEE doubles is abstracted
away; no claim below depends on it). -/

/-- Python's value space for `float(str)`: a sign-carrying finite magnitude,
signed infinity (`float("inf")`), or NaN (formatted without a sign). -/
inductive PyFloat
  | finite (neg : Bool) (mag : ℚ)
  | inf (neg : Bool)
  | nan
  deriving Repr, DecidableEq

/-- The whitespace `float(...)` strips (and `\s` of Python's `re`):
space, tab, newline, carriage return, vertical tab, form feed. -/
def isPyWs (c : Char) : Bool :=
  c = ' ' || c = '\t' || c = '\n' || c = '\r' || c = '\x0b' || c = '\x0c'

/-- An optional leading sign; `true` means negative. -/
def pySign : List Char → Bool × List Char
  | '+' :: r => (false, r)
  | '-' :: r => (true, r)
  | r => (false, r)

/-- PEP 515: every underscore in a numeric string must sit between two
digits.  `prev` is the character just before the current suffix. -/
def underscoresOk (prev : Option Char) : List Char → Bool
  | [] => true
  | '_' :: rest =>
      (match prev with | some p => p.isDigit | none => false) &&
      (match rest with | c :: _ => c.isDigit | [] => false) &&
      underscoresOk (some '_') rest
  | c :: rest => underscoresOk (some c) rest

/-- The value of a (already validated) digit string. -/
def digitsVal (ds : List Char) : ℕ :=
  ds.foldl (fun a c => a * 10 + (c.toNat - 48)) 0

/-- The decimal part of `float(str)` after sign removal and underscore
removal: `[digits][.digits][(e|E)[sign]digits]`, needing at least one
mantissa digit and, when an exponent marker is present, at least one
exponent digit. -/
def pyParseDecimal (neg : Bool) (cs : List Char) : Option PyFloat :=
  let mant := cs.takeWhile (fun c => !(c = 'e' || c = 'E'))
  let rest := cs.dropWhile (fun c => !(c = 'e' || c = 'E'))
  let ip := mant.takeWhile (fun c => !(c = '.'))
  let rest2 := mant.dropWhile (fun c => !(c = '.'))
  let fp := rest2.drop 1
  if ip.all Char.isDigit && fp.all Char.isDigit && !(ip.isEmpty && fp.isEmpty) then
    let expv : Option ℤ :=
      match rest with
      | [] => some 0
      | _ :: ecs =>
          let (eneg, eds) := pySign ecs
          if !eds.isEmpty && eds.all Char.isDigit then
            some (if eneg then -(digitsVal eds : ℤ) else (digitsVal eds : ℤ))
          else none
    match expv with
    | some ev =>
        some (.finite neg
          ((digitsVal (ip ++ fp) : ℚ) / (10 : ℚ) ^ fp.length * (10 : ℚ) ^ ev))
    | none => none
  else none

/-- Python `float(str)`: strip surrounding whitespace, optional sign, then
`inf`/`infinity`/`nan` (case-insensitive) or a decimal literal with PEP 515
underscores.  `none` models the `ValueError` the code catches. -/
def pyParseFloat (s : String) : Option PyFloat :=
  let cs := (((s.data.dropWhile isPyWs).reverse.dropWhile isPyWs).reverse)
  let (neg, cs) := pySign cs
  let low := cs.map Char.toLower
  if low = "inf".data || low = "infinity".data then some (.inf neg)
  else if low = "nan".data then some .nan
  else if underscoresOk none cs then
    pyParseDecimal neg (cs.filter (fun c => !(c = '_')))
  else none

/-- Round a nonnegative rational to the nearest integer, ties to even
(the rounding of Python's fixed-point float formatting). -/
def roundHalfEven (q : ℚ) : ℕ :=
  let n := q.floor.toNat
  let r := q - q.floor
  if r < 1 / 2 then n
  else if 1 / 2 < r then n + 1
  else if n % 2 = 0 then n else n + 1

/-- Left-pad the decimal rendering of `v` with zeros to width `w`. -/
def zeroPad (w : Nat) (v : Nat) : String :=
  let s := toString v
  String.mk (List.replicate (w - s.length) '0') ++ s

/-- Python `f"{x:.5f}"`: five fixed decimals, sign kept for negative zero,
`inf`/`-inf`/`nan` for the specials. -/
def formatFixed5 (x : PyFloat) : String :=
  match x with
  | .inf neg => if neg then "-inf" else "inf"
  | .nan => "nan"
  | .finite neg mag =>
      let n := roundHalfEven (mag * 100000)
      (if neg then "-" else "") ++ toString (n / 100000) ++ "." ++
        zeroPad 5 (n % 100000)

/-! ## `src/app.py` — `reverse_geocode_location` (lines 23–47) -/

/-- Outcome of the reverse-geocoding HTTP exchange: `success` carries
`data.get("display_name", "")`; `failure` is any exception inside the
second `try` (HTTP status error, transport failure, JSON decoding), all
absorbed by the bare `except Exception`. -/
inductive ReverseGeocodeResponse
  | success (display_name : String)
  | failure
  deriving Repr, DecidableEq

/-- The coordinate part of the status label: `` `{lat:.5f}, {lng:.5f}` ``. -/
def coordLabel (lat lng : PyFloat) : String :=
  "`" ++ formatFixed5 lat ++ ", " ++ formatFixed5 lng ++ "`"

/-- `reverse_geocode_location` (src/app.py lines 23–47): empty input,
malformed split, unparseable floats, transport failure and success all
return `(coords, status_markdown)` with the input `coords` passed through
unchanged. -/
def reverse_geocode_location (coords : String)
    (resp : ReverseGeocodeResponse) : String × String :=
  if coords = "" then (coords, "")
  else
    match coords.splitOn "," with
    | [p1, p2] =>
        match pyParseFloat p1, pyParseFloat p2 with
        | some lat, some lng =>
            (match resp with
              | .success name =>
                  (coords,
                    if name = "" then coordLabel lat lng
                    else "**" ++ name ++ "**  \n" ++ coordLabel lat lng)
              | .failure => (coords, coordLabel lat lng))
        | _, _ => (coords, "")
    | _ => (coords, "")

/-! ## `src/app.py` — `chat_stream` (lines 52–88)

The LangGraph event stream is modelled as the list of messages the loop
receives; `re.search(r"Latitude:\s*([-\d.]+)", ...)` is modelled by a
leftmost-match scan with a greedy character-class group. -/

/-- `[-\d.]` — the characters of the coordinate capture group. -/
def coordChar (c : Char) : Bool := c = '-' || c.isDigit || c = '.'

/-- Try to match `lbl` + `\s*` + a nonempty `[-\d.]+` group at the head of
`s`; return the (greedy) group. -/
def matchLabelAt (lbl s : List Char) : Option (List Char) :=
  if lbl.isPrefixOf s then
    let grp := ((s.drop lbl.length).dropWhile isPyWs).takeWhile coordChar
    if grp.isEmpty then none else some grp
  else none

/-- `re.search`: the leftmost position where the pattern matches. -/
def searchLabelNum (lbl : List Char) : List Char → Option (List Char)
  | [] => matchLabelAt lbl []
  | c :: cs =>
      match matchLabelAt lbl (c :: cs) with
      | some grp => some grp
      | none => searchLabelNum lbl cs

/-- Lines 72–75 of src/app.py: both regex searches on a tool message's
content, and the `"{lat},{lng}"` coordinate string built on a double hit. -/
def extractCoords (content : String) : Option String :=
  match searchLabelNum "Latitude:".data content.data,
      searchLabelNum "Longitude:".data content.data with
  | some la, some lo => some (String.mk la ++ "," ++ String.mk lo)
  | _, _ => none

/-- One event of `agent.stream(..., stream_mode="messages")` as the loop
classifies it: a `ToolMessage` (its `str(msg.content)`), an `AIMessage`
whose `.content` is a string (possibly empty, which Python treats as
falsy), or anything else — other message kinds and `AIMessage`s with
non-string content, which the loop ignores. -/
inductive StreamMsg
  | tool (content : String)
  | ai (content : String)
  | other
  deriving Repr, DecidableEq

/-- The fallback text of src/app.py line 88. -/
def fallbackText : String := "I'm sorry, I couldn't process that request."

/-- The event loop of `chat_stream` (src/app.py lines 62–85) from a given
`accumulated`/`pending_coords` state: returns the final `accumulated` and
the list of yielded `(accumulated_text, new_map_coords)` pairs in order. -/
def streamLoop (acc pending : String) :
    List StreamMsg → String × List (String × String)
  | [] => (acc, [])
  | .tool c :: ms =>
      match extractCoords c with
      | some coords =>
          -- yield immediately, then clear the one-shot trigger
          let rest := streamLoop acc "" ms
          (rest.1, (acc, coords) :: rest.2)
      | none => streamLoop acc pending ms
  | .ai c :: ms =>
      if c = "" then streamLoop acc pending ms
      else
        let rest := streamLoop (acc ++ c) "" ms
        (rest.1, (acc ++ c, pending) :: rest.2)
  | .other :: ms => streamLoop acc pending ms

/-- `chat_stream` (src/app.py lines 52–88): the yielded pairs of one run,
with the fallback yield of lines 87–88 when no assistant text accumulated. -/
def chat_stream (events : List StreamMsg) : List (String × String) :=
  let r := streamLoop "" "" events
  if r.1 = "" then r.2 ++ [(fallbackText, "")] else r.2

/-- The full assistant text of a run: the concatenation of the string
contents of the `AIMessage` events, in order. -/
def aiConcat : List StreamMsg → String
  | [] => ""
  | .ai c :: ms => c ++ aiConcat ms
  | .tool _ :: ms => aiConcat ms
  | .other :: ms => aiConcat ms

/-! ## C1 — date defaulting of the omitted `end_date` -/

/-- C1: the claim says that with `start_date` supplied and `end_date`
omitted, the effective `end_date` is `start_date + 7` (as does the
function's own docstring, src/tools.py line 70).  The code (line 80)
computes `date.today() + timedelta(days=7)` instead: with today = day 0 and
a supplied start_date = day 10 the request carries end_date = day 7, not
day 17.  (The other half of the claim — an omitted `start_date` defaults to
today — does hold: the same evaluation shows `start_date = 0` when it is
omitted.) -/
theorem end_date_default_ignores_start_date :
    ((get_weather_forecast "48.8566" "2.3522" 0 (some 10) none "fahrenheit"
        "auto" (.httpStatusError 500 "")).1.start_date = 10 ∧
      (get_weather_forecast "48.8566" "2.3522" 0 (some 10) none "fahrenheit"
        "auto" (.httpStatusError 500 "")).1.end_date = 7 ∧
      ¬ ((get_weather_forecast "48.8566" "2.3522" 0 (some 10) none "fahrenheit"
        "auto" (.httpStatusError 500 "")).1.end_date = 10 + 7)) ∧
    (get_weather_forecast "48.8566" "2.3522" 0 none none "fahrenheit"
        "auto" (.httpStatusError 500 "")).1.start_date = 0 := by
  refine ⟨⟨rfl, rfl, ?_⟩, rfl⟩
  decide

/-! ## C2 — the default window and the sign of the date difference -/

/-- C2 counterexample: the claim's second half says the effective
`end_date − start_date` is ≥ 0 for every combination of supplied/omitted
dates.  With today = day 0, a supplied `start_date` = day 10 and an omitted
`end_date`, the request window is [10, 7]: the difference is −3. -/
theorem forecast_window_difference_negative :
    ¬ (0 ≤ (get_weather_forecast "48.8566" "2.3522" 0 (some 10) none
        "fahrenheit" "auto" (.httpStatusError 500 "")).1.end_date -
      (get_weather_forecast "48.8566" "2.3522" 0 (some 10) none
        "fahrenheit" "auto" (.httpStatusError 500 "")).1.start_date) := by
  decide

/-- C2 (amended): with neither `start_date` nor `end_date` supplied the
effective window is exactly [today, today + 7] inclusive, and in that case
`end_date − start_date = 7 ≥ 0`.  (The unrestricted "≥ 0 for every
combination" is refuted by `forecast_window_difference_negative`.) -/
theorem forecast_default_window (lat lng : String) (today : ℤ)
    (u tz : String) (resp : ForecastResponse) :
    (get_weather_forecast lat lng today none none u tz resp).1.start_date =
        today ∧
      (get_weather_forecast lat lng today none none u tz resp).1.end_date =
        today + 7 ∧
      (get_weather_forecast lat lng today none none u tz resp).1.end_date -
          (get_weather_forecast lat lng today none none u tz resp).1.start_date =
        7 ∧
      0 ≤ (get_weather_forecast lat lng today none none u tz resp).1.end_date -
          (get_weather_forecast lat lng today none none u tz resp).1.start_date := by
  refine ⟨rfl, rfl, ?_, ?_⟩ <;>
    simp [get_weather_forecast, effectiveStartDate, effectiveEndDate]

/-! ## C3 — failures degrade to text, never to a raised exception -/

/-- C3: both tools are total functions into `String` over every modelled
outcome (the embedding returns a result in each branch of the exception
handlers at src/tools.py lines 48–51 and 161–164); each failure branch is
the descriptive text the code builds, and the forecast tool's HTTP-error
text carries the response status code and body verbatim. -/
theorem tool_failures_degrade_to_text (address body msg lat lng u tz : String)
    (status : ℕ) (today : ℤ) (sd ed : Option ℤ) :
    geocode_address address (.httpStatusError status) =
        "Geocoding API error: " ++ toString status ∧
      geocode_address address (.otherException msg) =
        "Geocoding error: " ++ msg ∧
      (get_weather_forecast lat lng today sd ed u tz
          (.httpStatusError status body)).2 =
        "API Error: " ++ toString status ++ " - " ++ body ∧
      (toString status).data <:+:
        (get_weather_forecast lat lng today sd ed u tz
          (.httpStatusError status body)).2.data ∧
      body.data <:+
        (get_weather_forecast lat lng today sd ed u tz
          (.httpStatusError status body)).2.data ∧
      (get_weather_forecast lat lng today sd ed u tz
          (.otherException msg)).2 =
        "Error fetching weather data: " ++ msg := by
  refine ⟨rfl, rfl, rfl, ?_, ?_, rfl⟩
  · show (toString status).data <:+:
      ("API Error: " ++ toString status ++ " - " ++ body).data
    refine ⟨"API Error: ".data, (" - " ++ body).data, ?_⟩
    simp [String.data_append, List.append_assoc]
  · show body.data <:+ ("API Error: " ++ toString status ++ " - " ++ body).data
    refine ⟨("API Error: " ++ toString status ++ " - ").data, ?_⟩
    simp [String.data_append, List.append_assoc]

/-! ## C5 — first-match policy and the no-match message -/

/-- C5: a non-empty geocoding response is rendered from its first element
only (the rest of the array never influences the output), exposing its
display name — defaulting to the queried address when absent — and its
latitude and longitude; the empty response yields the no-match text naming
the queried address. -/
theorem geocode_first_match_policy (address : String) (r : GeoItem)
    (rest : List GeoItem) :
    geocode_address address (.success (r :: rest)) =
        "Location: \"" ++ r.display_name.getD address ++ "\"\n" ++
          "Latitude: " ++ r.lat ++ "\n" ++ "Longitude: " ++ r.lon ∧
      geocode_address address (.success []) =
        "Could not find a location matching \"" ++ address ++
          "\". Try a different search term." := by
  exact ⟨rfl, rfl⟩

/-! ## C4 — condition codes render through the fixed table, else "Unknown" -/

/-- C4: every successfully formatted day block renders its condition as
`weather_descriptions.get(code, "Unknown")`: codes present in the fixed
table render the table's description, and a code absent from the table
renders the literal `"Unknown"` instead of failing. -/
theorem condition_rendered_from_table (d : DailyData) (u : String) (i : ℕ)
    (dt row : String) (h : formatRow d u i dt = .ok row) :
    (∃ wc tmin tmax pr prp wd,
      d.weathercode.get? i = some wc ∧
      d.temperature_2m_min.get? i = some tmin ∧
      d.temperature_2m_max.get? i = some tmax ∧
      d.precipitation_sum.get? i = some pr ∧
      d.precipitation_probability_max.get? i = some prp ∧
      d.windspeed_10m_max.get? i = some wd ∧
      row = "\n" ++ dt ++ ":\n" ++ "  Condition: " ++
          ((weather_descriptions.lookup wc).getD "Unknown") ++ "\n" ++
        "  Temperature: " ++ tmin ++ u ++ " - " ++ tmax ++ u ++ "\n" ++
        "  Precipitation: " ++ pr ++ "mm (probability: " ++ prp ++ "%)\n" ++
        "  Max Wind: " ++ wd ++ " km/h") ∧
    (∀ p ∈ weather_descriptions, weather_descriptions.lookup p.1 = some p.2) ∧
    (∀ wc : ℤ, weather_descriptions.lookup wc = none →
      (weather_descriptions.lookup wc).getD "Unknown" = "Unknown") := by
  refine ⟨?_, by decide, fun wc hwc => by rw [hwc]; rfl⟩
  unfold formatRow at h
  split at h
  · rename_i wc tmin tmax pr prp wd hwc htmin htmax hpr hprp hwd
    injection h with h
    exact ⟨wc, tmin, tmax, pr, prp, wd, hwc, htmin, htmax, hpr, hprp, hwd, h.symm⟩
  · exact absurd h (by simp)

/-- C4 witness: a day whose condition code 42 is not in the table renders
`Condition: Unknown` (and the response's values round through `get?`). -/
theorem condition_rendered_from_table_witness :
    ∃ wc tmin tmax pr prp wd,
      (⟨["2024-06-01"], ["22"], ["14"], ["0"], ["10"], ["12"], [42]⟩ :
          DailyData).weathercode.get? 0 = some wc ∧
      (⟨["2024-06-01"], ["22"], ["14"], ["0"], ["10"], ["12"], [42]⟩ :
          DailyData).temperature_2m_min.get? 0 = some tmin ∧
      (⟨["2024-06-01"], ["22"], ["14"], ["0"], ["10"], ["12"], [42]⟩ :
          DailyData).temperature_2m_max.get? 0 = some tmax ∧
      (⟨["2024-06-01"], ["22"], ["14"], ["0"], ["10"], ["12"], [42]⟩ :
          DailyData).precipitation_sum.get? 0 = some pr ∧
      (⟨["2024-06-01"], ["22"], ["14"], ["0"], ["10"], ["12"], [42]⟩ :
          DailyData).precipitation_probability_max.get? 0 = some prp ∧
      (⟨["2024-06-01"], ["22"], ["14"], ["0"], ["10"], ["12"], [42]⟩ :
          DailyData).windspeed_10m_max.get? 0 = some wd ∧
      "\n2024-06-01:\n  Condition: Unknown\n  Temperature: 14°F - 22°F\n  Precipitation: 0mm (probability: 10%)\n  Max Wind: 12 km/h" =
        "\n" ++ "2024-06-01" ++ ":\n" ++ "  Condition: " ++
          ((weather_descriptions.lookup wc).getD "Unknown") ++ "\n" ++
        "  Temperature: " ++ tmin ++ "°F" ++ " - " ++ tmax ++ "°F" ++ "\n" ++
        "  Precipitation: " ++ pr ++ "mm (probability: " ++ prp ++ "%)\n" ++
        "  Max Wind: " ++ wd ++ " km/h" :=
  (condition_rendered_from_table
    ⟨["2024-06-01"], ["22"], ["14"], ["0"], ["10"], ["12"], [42]⟩ "°F" 0
    "2024-06-01"
    "\n2024-06-01:\n  Condition: Unknown\n  Temperature: 14°F - 22°F\n  Precipitation: 0mm (probability: 10%)\n  Max Wind: 12 km/h"
    rfl).1

/-! ## C6 — unit symbol matches the requested temperature unit -/

/-- C6: the single `unit_symbol` of a request is `°F` iff the requested
unit is `fahrenheit` and `°C` for `celsius`, every temperature value of a
formatted day block is annotated with exactly that symbol, and the rendered
values are the response's values verbatim (no client-side conversion). -/
theorem temperature_unit_symbol (d : DailyData) (tu : String) (i : ℕ)
    (dt row : String) (h : formatRow d (unitSymbol tu) i dt = .ok row) :
    (∃ wc tmin tmax pr prp wd,
      d.weathercode.get? i = some wc ∧
      d.temperature_2m_min.get? i = some tmin ∧
      d.temperature_2m_max.get? i = some tmax ∧
      d.precipitation_sum.get? i = some pr ∧
      d.precipitation_probability_max.get? i = some prp ∧
      d.windspeed_10m_max.get? i = some wd ∧
      row = "\n" ++ dt ++ ":\n" ++ "  Condition: " ++
          ((weather_descriptions.lookup wc).getD "Unknown") ++ "\n" ++
        "  Temperature: " ++ tmin ++ unitSymbol tu ++ " - " ++ tmax ++
          unitSymbol tu ++ "\n" ++
        "  Precipitation: " ++ pr ++ "mm (probability: " ++ prp ++ "%)\n" ++
        "  Max Wind: " ++ wd ++ " km/h") ∧
    unitSymbol "fahrenheit" = "°F" ∧ unitSymbol "celsius" = "°C" := by
  refine ⟨?_, rfl, by decide⟩
  unfold formatRow at h
  split at h
  · rename_i wc tmin tmax pr prp wd hwc htmin htmax hpr hprp hwd
    injection h with h
    exact ⟨wc, tmin, tmax, pr, prp, wd, hwc, htmin, htmax, hpr, hprp, hwd, h.symm⟩
  · exact absurd h (by simp)

/-- C6 witness: a celsius request's day block annotates both temperatures
with `°C` and carries the response's `14`/`22` through unchanged. -/
theorem temperature_unit_symbol_witness :
    ∃ wc tmin tmax pr prp wd,
      (⟨["2024-06-01"], ["22"], ["14"], ["0"], ["10"], ["12"], [1]⟩ :
          DailyData).weathercode.get? 0 = some wc ∧
      (⟨["2024-06-01"], ["22"], ["14"], ["0"], ["10"], ["12"], [1]⟩ :
          DailyData).temperature_2m_min.get? 0 = some tmin ∧
      (⟨["2024-06-01"], ["22"], ["14"], ["0"], ["10"], ["12"], [1]⟩ :
          DailyData).temperature_2m_max.get? 0 = some tmax ∧
      (⟨["2024-06-01"], ["22"], ["14"], ["0"], ["10"], ["12"], [1]⟩ :
          DailyData).precipitation_sum.get? 0 = some pr ∧
      (⟨["2024-06-01"], ["22"], ["14"], ["0"], ["10"], ["12"], [1]⟩ :
          DailyData).precipitation_probability_max.get? 0 = some prp ∧
      (⟨["2024-06-01"], ["22"], ["14"], ["0"], ["10"], ["12"], [1]⟩ :
          DailyData).windspeed_10m_max.get? 0 = some wd ∧
      "\n2024-06-01:\n  Condition: Mainly clear\n  Temperature: 14°C - 22°C\n  Precipitation: 0mm (probability: 10%)\n  Max Wind: 12 km/h" =
        "\n" ++ "2024-06-01" ++ ":\n" ++ "  Condition: " ++
          ((weather_descriptions.lookup wc).getD "Unknown") ++ "\n" ++
        "  Temperature: " ++ tmin ++ unitSymbol "celsius" ++ " - " ++ tmax ++
          unitSymbol "celsius" ++ "\n" ++
        "  Precipitation: " ++ pr ++ "mm (probability: " ++ prp ++ "%)\n" ++
        "  Max Wind: " ++ wd ++ " km/h" :=
  (temperature_unit_symbol
    ⟨["2024-06-01"], ["22"], ["14"], ["0"], ["10"], ["12"], [1]⟩ "celsius" 0
    "2024-06-01"
    "\n2024-06-01:\n  Condition: Mainly clear\n  Temperature: 14°C - 22°C\n  Precipitation: 0mm (probability: 10%)\n  Max Wind: 12 km/h"
    rfl).1

/-! ## C7 — the header echoes the geocoded coordinates unchanged -/

/-- C7: the latitude/longitude a `GeoItem` exposes through the geocode
output are, when passed to the forecast tool, echoed verbatim in the
successful output's `Weather Forecast for (lat, lng)` header line. -/
theorem forecast_header_echoes_coordinates (g : GeoItem) (address : String)
    (gs : List GeoItem) (today : ℤ) (sd ed : Option ℤ) (tu tz : String)
    (daily : DailyData) (rows : List String)
    (h : formatDays daily (unitSymbol tu) = .ok rows) :
    geocode_address address (.success (g :: gs)) =
        "Location: \"" ++ g.display_name.getD address ++ "\"\n" ++
          "Latitude: " ++ g.lat ++ "\n" ++ "Longitude: " ++ g.lon ∧
      ∃ rest,
        (get_weather_forecast g.lat g.lon today sd ed tu tz
            (.success daily)).2 =
          "Weather Forecast for (" ++ g.lat ++ ", " ++ g.lon ++ ")" ++
            "\n" ++ rest := by
  refine ⟨rfl, joinLines (("Timezone: " ++ tz) :: dashes50 :: rows), ?_⟩
  unfold get_weather_forecast
  simp only [h]
  rfl

/-- C7 witness at the Paris coordinates and a one-day response. -/
theorem forecast_header_echoes_coordinates_witness :
    geocode_address "Paris"
        (.success [⟨"48.8566", "2.3522", some "Paris, France"⟩]) =
        "Location: \"" ++
          (⟨"48.8566", "2.3522", some "Paris, France"⟩ :
            GeoItem).display_name.getD "Paris" ++ "\"\n" ++
          "Latitude: " ++ "48.8566" ++ "\n" ++ "Longitude: " ++ "2.3522" ∧
      ∃ rest,
        (get_weather_forecast "48.8566" "2.3522" 100 none none "celsius"
            "auto"
            (.success
              ⟨["2024-06-01"], ["22"], ["14"], ["0"], ["10"], ["12"], [1]⟩)).2 =
          "Weather Forecast for (" ++ "48.8566" ++ ", " ++ "2.3522" ++ ")" ++
            "\n" ++ rest :=
  forecast_header_echoes_coordinates
    ⟨"48.8566", "2.3522", some "Paris, France"⟩ "Paris" [] 100 none none
    "celsius" "auto"
    ⟨["2024-06-01"], ["22"], ["14"], ["0"], ["10"], ["12"], [1]⟩
    ["\n2024-06-01:\n  Condition: Mainly clear\n  Temperature: 14°C - 22°C\n  Precipitation: 0mm (probability: 10%)\n  Max Wind: 12 km/h"]
    rfl

/-! ## C9 — `reverse_geocode_location` echoes its input coordinate string -/

/-- C9: in every branch — empty input, malformed split, unparseable floats,
transport failure, missing display name, success — the returned pair's
first component is the input coordinate string unchanged (and the function
is a total Lean function, so no branch raises). -/
theorem reverse_geocode_preserves_input (coords : String)
    (resp : ReverseGeocodeResponse) :
    (reverse_geocode_location coords resp).1 = coords := by
  unfold reverse_geocode_location
  (repeat' split) <;> rfl

/-! ## Lemmas about `streamLoop` (towards C8 and C10) -/

/-- The final accumulated text of the loop is the entry text followed by
every string `AIMessage` content, in order. -/
theorem streamLoop_fst (ms : List StreamMsg) :
    ∀ acc p, (streamLoop acc p ms).1 = acc ++ aiConcat ms := by
  induction ms with
  | nil => intro acc p; simp [streamLoop, aiConcat]
  | cons m ms ih =>
    intro acc p
    cases m with
    | tool c =>
      cases h : extractCoords c with
      | some coords => simp [streamLoop, h, ih, aiConcat]
      | none => simp [streamLoop, h, ih, aiConcat]
    | ai c =>
      by_cases hc : c = ""
      · subst hc; simp [streamLoop, ih, aiConcat]
      · simp [streamLoop, hc, ih, aiConcat, String.append_assoc]
    | other => simp [streamLoop, ih, aiConcat]

/-- Every yielded text extends the loop's entry text. -/
theorem streamLoop_yield_extends (ms : List StreamMsg) :
    ∀ acc p x, x ∈ (streamLoop acc p ms).2 → acc.data <+: x.1.data := by
  induction ms with
  | nil => intro acc p x hx; simp [streamLoop] at hx
  | cons m ms ih =>
    intro acc p x hx
    cases m with
    | tool c =>
      cases h : extractCoords c with
      | some coords =>
        simp only [streamLoop, h] at hx
        rcases List.mem_cons.mp hx with rfl | hx
        · exact List.prefix_refl _
        · exact ih acc "" x hx
      | none =>
        simp only [streamLoop, h] at hx
        exact ih acc p x hx
    | ai c =>
      by_cases hc : c = ""
      · subst hc
        simp only [streamLoop, if_pos rfl] at hx
        exact ih acc p x hx
      · simp only [streamLoop, if_neg hc] at hx
        rcases List.mem_cons.mp hx with rfl | hx
        · simp [String.data_append]
        · exact (List.prefix_append acc.data c.data).trans
            (by simpa [String.data_append] using ih (acc ++ c) "" x hx)
    | other =>
      simp only [streamLoop] at hx
      exact ih acc p x hx

/-- Every yielded text is a prefix of the loop's final accumulated text. -/
theorem streamLoop_yield_le_final (ms : List StreamMsg) :
    ∀ acc p x, x ∈ (streamLoop acc p ms).2 →
      x.1.data <+: (streamLoop acc p ms).1.data := by
  induction ms with
  | nil => intro acc p x hx; simp [streamLoop] at hx
  | cons m ms ih =>
    intro acc p x hx
    cases m with
    | tool c =>
      cases h : extractCoords c with
      | some coords =>
        simp only [streamLoop, h] at hx ⊢
        rcases List.mem_cons.mp hx with rfl | hx
        · rw [streamLoop_fst, String.data_append]
          exact List.prefix_append _ _
        · exact ih acc "" x hx
      | none =>
        simp only [streamLoop, h] at hx ⊢
        exact ih acc p x hx
    | ai c =>
      by_cases hc : c = ""
      · subst hc
        simp only [streamLoop, if_pos rfl] at hx ⊢
        exact ih acc p x hx
      · simp only [streamLoop, if_neg hc] at hx ⊢
        rcases List.mem_cons.mp hx with rfl | hx
        · rw [streamLoop_fst]; simp [String.data_append]
        · exact ih (acc ++ c) "" x hx
    | other =>
      simp only [streamLoop] at hx ⊢
      exact ih acc p x hx

/-- The yielded texts grow monotonically: each is a prefix of the next. -/
theorem streamLoop_chain (ms : List StreamMsg) :
    ∀ acc p, List.Chain' (fun a b : String × String => a.1.data <+: b.1.data)
      (streamLoop acc p ms).2 := by
  induction ms with
  | nil => intro acc p; simp [streamLoop]
  | cons m ms ih =>
    intro acc p
    cases m with
    | tool c =>
      cases h : extractCoords c with
      | some coords =>
        simp only [streamLoop, h]
        refine List.chain'_cons'.mpr ⟨fun y hy => ?_, ih acc ""⟩
        exact streamLoop_yield_extends ms acc "" y (List.mem_of_mem_head? hy)
      | none => simp only [streamLoop, h]; exact ih acc p
    | ai c =>
      by_cases hc : c = ""
      · subst hc; simp only [streamLoop, if_pos rfl]; exact ih acc p
      · simp only [streamLoop, if_neg hc]
        refine List.chain'_cons'.mpr ⟨fun y hy => ?_, ih (acc ++ c) ""⟩
        exact streamLoop_yield_extends ms (acc ++ c) "" y
          (List.mem_of_mem_head? hy)
    | other => simp only [streamLoop]; exact ih acc p

/-- A run that yields nothing accumulates nothing. -/
theorem streamLoop_no_yield (ms : List StreamMsg) :
    ∀ acc p, (streamLoop acc p ms).2 = [] → (streamLoop acc p ms).1 = acc := by
  induction ms with
  | nil => intro acc p _; rfl
  | cons m ms ih =>
    intro acc p hy
    cases m with
    | tool c =>
      cases h : extractCoords c with
      | some coords => simp [streamLoop, h] at hy
      | none =>
        simp only [streamLoop, h] at hy ⊢
        exact ih acc p hy
    | ai c =>
      by_cases hc : c = ""
      · subst hc
        simp only [streamLoop, if_pos rfl] at hy ⊢
        exact ih acc p hy
      · simp [streamLoop, if_neg hc] at hy
    | other =>
      simp only [streamLoop] at hy ⊢
      exact ih acc p hy

/-- The last yielded text is the loop's final accumulated text. -/
theorem streamLoop_last_yield (ms : List StreamMsg) :
    ∀ acc p x, (streamLoop acc p ms).2.getLast? = some x →
      x.1 = (streamLoop acc p ms).1 := by
  induction ms with
  | nil => intro acc p x hx; simp [streamLoop] at hx
  | cons m ms ih =>
    intro acc p x hx
    cases m with
    | tool c =>
      cases h : extractCoords c with
      | some coords =>
        simp only [streamLoop, h] at hx ⊢
        cases hr : (streamLoop acc "" ms).2 with
        | nil =>
          rw [hr] at hx
          simp only [List.getLast?_singleton, Option.some.injEq] at hx
          rw [← hx, streamLoop_no_yield ms acc "" hr]
        | cons z zs =>
          rw [hr] at hx
          rw [List.getLast?_cons_cons] at hx
          exact ih acc "" x (hr ▸ hx)
      | none =>
        simp only [streamLoop, h] at hx ⊢
        exact ih acc p x hx
    | ai c =>
      by_cases hc : c = ""
      · subst hc
        simp only [streamLoop, if_pos rfl] at hx ⊢
        exact ih acc p x hx
      · simp only [streamLoop, if_neg hc] at hx ⊢
        cases hr : (streamLoop (acc ++ c) "" ms).2 with
        | nil =>
          rw [hr] at hx
          simp only [List.getLast?_singleton, Option.some.injEq] at hx
          rw [← hx, streamLoop_no_yield ms (acc ++ c) "" hr]
        | cons z zs =>
          rw [hr] at hx
          rw [List.getLast?_cons_cons] at hx
          exact ih (acc ++ c) "" x (hr ▸ hx)
    | other =>
      simp only [streamLoop] at hx ⊢
      exact ih acc p x hx

/-! ## C8 — streaming pushes cumulative snapshots, not deltas -/

/-- C8: in every run of `chat_stream` the yielded texts form a chain in
which each extends the previous one as a prefix (full accumulated text per
push, never a delta), and the final yield carries the complete answer: the
concatenation of all assistant text, or the fallback message when there was
none. -/
theorem chat_stream_cumulative (events : List StreamMsg) :
    List.Chain' (fun a b : String × String => a.1.data <+: b.1.data)
      (chat_stream events) ∧
    (chat_stream events).getLast?.map Prod.fst =
      some (if aiConcat events = "" then fallbackText else aiConcat events) := by
  have hfst := streamLoop_fst events "" ""
  rw [String.empty_append] at hfst
  unfold chat_stream
  by_cases h0 : (streamLoop "" "" events).1 = ""
  · rw [if_pos h0]
    have hai : aiConcat events = "" := hfst ▸ h0
    constructor
    · refine List.chain'_append.mpr
        ⟨streamLoop_chain events "" "", List.chain'_singleton _, ?_⟩
      intro x hx y _
      have hpre := streamLoop_yield_le_final events "" "" x
        (List.mem_of_mem_getLast? hx)
      rw [h0] at hpre
      rw [List.prefix_nil.mp hpre]
      exact List.nil_prefix
    · rw [List.getLast?_concat]
      simp [hai]
  · rw [if_neg h0]
    have hai : aiConcat events ≠ "" := fun hc => h0 (hfst.trans hc)
    refine ⟨streamLoop_chain events "" "", ?_⟩
    cases hl : (streamLoop "" "" events).2.getLast? with
    | none =>
      exact absurd (streamLoop_no_yield events "" ""
        (List.getLast?_eq_none_iff.mp hl)) h0
    | some x =>
      rw [Option.map_some', streamLoop_last_yield events "" "" x hl, hfst,
        if_neg hai]

/-! ## C10 — the stream is never empty; the fallback pair on silence -/

/-- C10: every run of `chat_stream` yields at least one tuple, and a run in
which the agent produced no assistant text at all yields the fallback pair
(the apology message with an empty coordinate string). -/
theorem chat_stream_never_empty (events : List StreamMsg) :
    chat_stream events ≠ [] ∧
      (aiConcat events = "" → (fallbackText, "") ∈ chat_stream events) := by
  have hfst := streamLoop_fst events "" ""
  rw [String.empty_append] at hfst
  unfold chat_stream
  by_cases h0 : (streamLoop "" "" events).1 = ""
  · rw [if_pos h0]
    exact ⟨fun hc => by simpa using congrArg List.length hc,
      fun _ => List.mem_append_right _ (List.mem_singleton.mpr rfl)⟩
  · rw [if_neg h0]
    refine ⟨fun hc => h0 (streamLoop_no_yield events "" "" hc), fun hai => ?_⟩
    exact absurd (hfst.trans hai) h0

end WeatherAgent
